import Mathlib

/-!
Shallow embedding of the gating engine (`src/services/gating.py`) and the
summarization fallback chain (`src/services/ai_services.py`) of the
discord_summarizer repository.

Modelling conventions:
* Python strings are lists of Unicode code points (`List Nat`).
* The module-level configuration (`config.py`) is a `Config` record passed
  explicitly; the module-level cache is a `Cache` value threaded through calls.
* `time.monotonic()` instants are integers supplied by the caller.
* The external classifier / OpenAI collaborators are oracles passed in as
  values (deterministic per input, matching a fixed environment per call).
* The SHA-256 fingerprint `_cache_key` is modelled by the 4096-character
  snippet itself: the digest is injective on the snippet for the purposes of
  these claims (collision-resistance abstraction).
* Each `Decide` result carries `evals`, the number of evaluation phases
  (classifier invocations plus keyword scans) the call performed, and the
  resulting cache, so that cache-hit and eval-count properties are statable.
-/

namespace DiscordSummarizer

/-- A Python string, as its list of Unicode code points. -/
abbrev Text := List Nat

/-- Code points of a Lean string literal, used for concrete inputs. -/
def charsOf (s : String) : Text := s.data.map Char.toNat

/-- ASCII lowercasing of one code point (Python `str.lower` restricted to the
ASCII range; all strings reaching the matcher are ASCII after normalization). -/
def lowerChar (c : Nat) : Nat := if 65 ≤ c ∧ c ≤ 90 then c + 32 else c

/-- Python `str.lower`, ASCII fragment. -/
def lowerStr (s : Text) : Text := s.map lowerChar

/-- ASCII whitespace, for Python `str.strip`. -/
def isSpaceChar (c : Nat) : Bool := c = 32 ∨ c = 9 ∨ c = 10 ∨ c = 13 ∨ c = 11 ∨ c = 12

/-- Python `str.strip` (ASCII whitespace fragment). -/
def stripStr (s : Text) : Text :=
  ((s.dropWhile isSpaceChar).reverse.dropWhile isSpaceChar).reverse

/-- Python `re` word characters, restricted to ASCII (the gate normalizes text to
ASCII before matching): letters, digits and underscore. -/
def isWordChar (c : Nat) : Bool :=
  (48 ≤ c ∧ c ≤ 57) ∨ (65 ≤ c ∧ c ≤ 90) ∨ (97 ≤ c ∧ c ≤ 122) ∨ c = 95

/-! ## Text normalization (`_normalize_text`)

`_normalize_text` applies `unicodedata.normalize("NFKD", text)`, then
`encode("ascii", "ignore")` (dropping every non-ASCII code point) and
`str.lower`. The NFKD table is not reproduced; the decomposition is an
explicit parameter `nfkd`, about which theorems assume only the true Unicode
fact that ASCII-only strings are NFKD-invariant. -/

/-- Model of `_normalize_text`: NFKD-decompose, drop non-ASCII code points, lowercase. -/
def normalize_text (nfkd : Text → Text) (text : Text) : Text :=
  ((nfkd text).filter (fun c => c < 128)).map lowerChar

/-! ## Keyword matching (`_find_keyword_matches`)

The pattern built by the source is `r"\b" + re.escape(token) + r"\b"`:
a literal occurrence of `token` with a `\b` word-boundary assertion on each
side. `re.escape` makes the `re.error` fallback branch unreachable, so the
substring fallback is not part of the model. -/

/-- Whether the code point at position `i` of `text` is a word character
(positions outside the string count as non-word, as in `re`). -/
def wordAt (text : Text) (i : Nat) : Bool :=
  match text.get? i with
  | some c => isWordChar c
  | none => false

/-- The `\b` assertion holds at position `i` iff the wordness of the code
points at `i - 1` and `i` differ (out-of-range positions are non-word). -/
def boundaryAt (text : Text) (i : Nat) : Bool :=
  (if i = 0 then false else wordAt text (i - 1)) != wordAt text i

/-- The regex `\b token \b` matches `text` at position `i`. -/
def matchesAt (text token : Text) (i : Nat) : Bool :=
  boundaryAt text i && List.isPrefixOf token (text.drop i)
    && boundaryAt text (i + token.length)

/-- Python `re.search` for the pattern `\b token \b`: some position matches. -/
def hasWordMatch (text token : Text) : Bool :=
  (List.range (text.length + 1)).any (fun i => matchesAt text token i)

/-- Model of `_find_keyword_matches`: for each keyword, strip + lowercase it, skip
empty tokens, and record it when `\b token \b` occurs in the text, in
keyword-list order. -/
def find_keyword_matches (text : Text) (keywords : List Text) : List Text :=
  match keywords with
  | [] => []
  | keyword :: rest =>
    let token := lowerStr (stripStr keyword)
    if token = [] then find_keyword_matches text rest
    else if hasWordMatch text token then token :: find_keyword_matches text rest
    else find_keyword_matches text rest

/-! ## Configuration (`config.py` gating knobs) -/

/-- The gating-relevant module-level configuration of `config.py`. -/
structure Config where
  enableGating : Bool
  strategy : Text
  matchMode : Text
  keywords : List Text
  defaultOnError : Bool
  cacheTTL : Int
  useModelGating : Bool
  fallbackToKeywords : Bool

def modelTok : Text := charsOf "model"
def keywordsTok : Text := charsOf "keywords"
def allowIfAnyTok : Text := charsOf "allow_if_any"
def denyIfAnyTok : Text := charsOf "deny_if_any"

/-! ## Decision cache (`_CACHE`, `_get_cached`, `_set_cached`, `_cache_key`) -/

/-- The module dict `_CACHE`: fingerprint, (expires_at, decision). -/
abbrev Cache := List (Text × (Int × Bool))

/-- Python `dict.get`. -/
def cacheLookup : Cache → Text → Option (Int × Bool)
  | [], _ => none
  | (k, e) :: rest, key => if k = key then some e else cacheLookup rest key

/-- Python `del _CACHE[key]`. -/
def cacheErase : Cache → Text → Cache
  | [], _ => []
  | (k, e) :: rest, key => if k = key then cacheErase rest key else (k, e) :: cacheErase rest key

/-- Model of `_cache_key`: SHA-256 of the first 4096 normalized characters, modelled by
the snippet itself (the digest is injective on snippets here). -/
def cache_key (text : Text) : Text := text.take 4096

/-- Model of `_get_cached`: returns the live decision for the key and the cache as it
stands afterwards (expired entries are deleted on read). -/
def get_cached (ttl : Int) (cache : Cache) (now : Int) (key : Text) : Option Bool × Cache :=
  if ttl ≤ 0 then (none, cache)
  else
    match cacheLookup cache key with
    | none => (none, cache)
    | some (expiresAt, decision) =>
      if expiresAt ≤ now then (none, cacheErase cache key) else (some decision, cache)

/-- Model of `_set_cached`: stores (now + ttl, decision) under the key when ttl > 0. -/
def set_cached (ttl : Int) (cache : Cache) (now : Int) (key : Text) (decision : Bool) : Cache :=
  if ttl ≤ 0 then cache else (key, (now + ttl, decision)) :: cacheErase cache key

/-! ## Match-mode evaluation (`_evaluate_matches`) -/

/-- Model of `_evaluate_matches`: empty configured keyword list or unknown match mode
fail open; `allow_if_any` allows iff some keyword matched; `deny_if_any`
allows iff none matched. -/
def evaluate_matches (cfg : Config) (matched : List Text) : Bool :=
  if cfg.keywords = [] then true
  else
    let mode := lowerStr cfg.matchMode
    if mode ≠ allowIfAnyTok ∧ mode ≠ denyIfAnyTok then true
    else if mode = allowIfAnyTok then !matched.isEmpty
    else matched.isEmpty

/-! ## Decision functions (`should_summarize`, `should_summarize_with_matches`)

The external classifier `is_article_relevant` is represented at this layer by
the outcome its invocation would have for the given text: a value
(`ok (some true)`, `ok (some false)`, `ok none`) or a raised exception
(`exn`), which the gating code catches. -/

/-- Outcome of one classifier invocation as seen by the gating code. -/
inductive ClassifierResult where
  | ok (reply : Option Bool)
  | exn
deriving DecidableEq

/-- Result of `should_summarize`: the boolean decision, the cache afterwards,
and how many evaluation phases (classifier calls plus keyword scans) ran. -/
structure DecideR where
  decision : Bool
  cache : Cache
  evals : Nat
deriving DecidableEq

/-- Result of `should_summarize_with_matches`. -/
structure DecideRM where
  decision : Bool
  matched : List Text
  cache : Cache
  evals : Nat
deriving DecidableEq

/-- The keyword phase shared by both functions: scan, evaluate, cache. -/
def keywordDecide (cfg : Config) (normalized : Text) : Bool × List Text :=
  let ms := find_keyword_matches normalized cfg.keywords
  (evaluate_matches cfg ms, ms)

/-- Model of `should_summarize`. Mirrors the source order: disabled-gating and empty
checks, then the model path (before any cache access, with no caching of the
model decision), then the unknown-strategy check, then cache lookup and the
keyword phase. The `except` around the keyword phase is unreachable here
(the phase is total), so the `GATING_DEFAULT_ON_ERROR` catch is not modelled. -/
def should_summarize (cfg : Config) (nfkd : Text → Text) (classify : ClassifierResult)
    (cache : Cache) (now : Int) (text : Text) : DecideR :=
  if ¬cfg.enableGating then ⟨true, cache, 0⟩
  else if text = [] then ⟨true, cache, 0⟩
  else
    let strategy := stripStr (lowerStr cfg.strategy)
    let modelPhase : Option DecideR × Nat :=
      if cfg.useModelGating ∧ strategy = modelTok then
        match classify with
        | .ok (some true) => (some ⟨true, cache, 1⟩, 1)
        | .ok (some false) => (some ⟨false, cache, 1⟩, 1)
        | .ok none => (none, 1)
        | .exn =>
          if ¬cfg.fallbackToKeywords then (some ⟨cfg.defaultOnError, cache, 1⟩, 1)
          else (none, 1)
      else (none, 0)
    match modelPhase with
    | (some r, _) => r
    | (none, e0) =>
      if strategy ≠ keywordsTok ∧ strategy ≠ modelTok then ⟨true, cache, e0⟩
      else
        let normalized := normalize_text nfkd text
        let key := cache_key normalized
        match get_cached cfg.cacheTTL cache now key with
        | (some d, c') => ⟨d, c', e0⟩
        | (none, c') =>
          let kd := keywordDecide cfg normalized
          ⟨kd.1, set_cached cfg.cacheTTL c' now key kd.1, e0 + 1⟩

/-- Model of `should_summarize_with_matches`. Mirrors the source order: empty check,
disabled check (unless `force`), cache lookup first, then the model path
(whose determinate decisions are cached), then the keyword phase. There is no
unknown-strategy check in this function. -/
def should_summarize_with_matches (cfg : Config) (nfkd : Text → Text)
    (classify : ClassifierResult) (cache : Cache) (now : Int) (text : Text)
    (force : Bool) : DecideRM :=
  if text = [] then ⟨true, [], cache, 0⟩
  else if ¬cfg.enableGating ∧ ¬force then ⟨true, [], cache, 0⟩
  else
    let normalized := normalize_text nfkd text
    let key := cache_key normalized
    match get_cached cfg.cacheTTL cache now key with
    | (some d, c') => ⟨d, [], c', 0⟩
    | (none, c') =>
      let strategy := stripStr (lowerStr cfg.strategy)
      if cfg.useModelGating ∧ strategy = modelTok then
        match classify with
        | .ok (some true) => ⟨true, [], set_cached cfg.cacheTTL c' now key true, 1⟩
        | .ok (some false) => ⟨false, [], set_cached cfg.cacheTTL c' now key false, 1⟩
        | .ok none =>
          if ¬cfg.fallbackToKeywords then ⟨cfg.defaultOnError, [], c', 1⟩
          else
            let kd := keywordDecide cfg normalized
            ⟨kd.1, kd.2, set_cached cfg.cacheTTL c' now key kd.1, 2⟩
        | .exn =>
          if ¬cfg.fallbackToKeywords then ⟨cfg.defaultOnError, [], c', 1⟩
          else
            let kd := keywordDecide cfg normalized
            ⟨kd.1, kd.2, set_cached cfg.cacheTTL c' now key kd.1, 2⟩
      else
        let kd := keywordDecide cfg normalized
        ⟨kd.1, kd.2, set_cached cfg.cacheTTL c' now key kd.1, 1⟩

/-! ## Summarization fallback chain (`ai_services.py`)

The OpenAI collaborators are oracles: the Responses-API attempt either raises
or returns a structured reply; the chat-completions attempt either raises or
returns `choices[0].message.content` (a string or `None`). Attribute
truthiness (`if getattr(x, "text", None):`) is `some` of a non-empty string. -/

/-- One piece of `item.content`. -/
structure ContentItem where
  text : Option Text
deriving DecidableEq

/-- One item of `response.output`. -/
structure OutputItem where
  text : Option Text
  content : Option (List ContentItem)
deriving DecidableEq

/-- A Responses-API reply object, as the extraction helpers see it. -/
structure Response where
  output_text : Option Text
  output : Option (List OutputItem)
deriving DecidableEq

/-- Python truthiness of an optional string attribute. -/
def truthy : Option Text → Bool
  | some s => !s.isEmpty
  | none => false

/-- Python truthiness of an optional list attribute. -/
def truthyList {α : Type} : Option (List α) → Bool
  | some l => !l.isEmpty
  | none => false

/-- Inner loop of `_extract_text_from_openai_response`: first truthy
`content_item.text` of a content list. -/
def firstContentText : List ContentItem → Option Text
  | [] => none
  | ci :: rest => if truthy ci.text then ci.text else firstContentText rest

/-- Outer loop: first truthy `item.text`, else first truthy nested content
text, scanning items in order. -/
def firstOutputText : List OutputItem → Option Text
  | [] => none
  | item :: rest =>
    if truthy item.text then item.text
    else if truthyList item.content then
      match firstContentText (item.content.getD []) with
      | some t => some t
      | none => firstOutputText rest
    else firstOutputText rest

/-- Model of `_extract_text_from_openai_response`: prefer `output_text`, else scan
`output` for the first present text fragment. -/
def extract_text_from_openai_response (response : Response) : Option Text :=
  if truthy response.output_text then response.output_text
  else if truthyList response.output then firstOutputText (response.output.getD [])
  else none

/-- Outcome of one outbound remote call: a reply, or a raised exception. -/
inductive CallResult (α : Type) where
  | ok (reply : α)
  | exn
deriving DecidableEq

/-- The remote environment a single `get_ai_summary`-style call runs in:
what the primary Responses-API call and the secondary chat-completions call
would produce for this input. -/
structure OpenAIEnv where
  primary : CallResult Response
  secondary : CallResult (Option Text)
deriving DecidableEq

/-- Shared skeleton of `get_ai_summary` and `get_audio_summary` after the
guard: primary call, truthiness-checked extraction with `strip`, then exactly
one chat-completions fallback whose `content` is returned verbatim. Returns
the result and the number of outbound attempts performed. -/
def summaryChain (env : OpenAIEnv) : Option Text × Nat :=
  match env.primary with
  | .ok resp =>
    match extract_text_from_openai_response resp with
    | some s =>
      if !s.isEmpty then (some (stripStr s), 1)
      else
        match env.secondary with
        | .ok content => (content, 2)
        | .exn => (none, 2)
    | none =>
      match env.secondary with
      | .ok content => (content, 2)
      | .exn => (none, 2)
  | .exn =>
    match env.secondary with
    | .ok content => (content, 2)
    | .exn => (none, 2)

/-- Model of `get_ai_summary`: `None` on empty text or an unconfigured client, else the
primary/secondary chain (prompts and model names do not affect the result
shape and are not modelled). -/
def get_ai_summary (clientConfigured : Bool) (env : OpenAIEnv) (text : Text) :
    Option Text × Nat :=
  if text = [] ∨ ¬clientConfigured then (none, 0) else summaryChain env

/-- Model of `get_audio_summary`: same guard and chain as `get_ai_summary`, with the
audio prompt/model (not result-relevant). -/
def get_audio_summary (clientConfigured : Bool) (env : OpenAIEnv) (text : Text) :
    Option Text × Nat :=
  if text = [] ∨ ¬clientConfigured then (none, 0) else summaryChain env

/-! ## Classifier (`is_article_relevant`) -/

def trueTok : Text := charsOf "true"
def falseTok : Text := charsOf "false"

/-- Python `needle in haystack` for strings: some suffix starts with it. -/
def containsSub (needle haystack : Text) : Bool :=
  (List.range (haystack.length + 1)).any (fun i => List.isPrefixOf needle (haystack.drop i))

/-- Reply parsing of `is_article_relevant`: strip + lowercase, then
`startswith("true")`, `startswith("false")`, `"true" in`, `"false" in`,
else indeterminate. -/
def parseRelevanceReply (s : Text) : Option Bool :=
  let norm := lowerStr (stripStr s)
  if List.isPrefixOf trueTok norm then some true
  else if List.isPrefixOf falseTok norm then some false
  else if containsSub trueTok norm then some true
  else if containsSub falseTok norm then some false
  else none

/-- Model of `is_article_relevant`: `None` on empty text or unconfigured client with no
outbound call; else the Responses-API attempt (parsed when a truthy text was
extracted), falling back to one chat-completions attempt. A `None` content in
the fallback raises on `.strip()` and is caught, yielding `None`. Returns the
classification and the number of outbound attempts. -/
def is_article_relevant (clientConfigured : Bool) (env : OpenAIEnv) (text : Text) :
    Option Bool × Nat :=
  if text = [] then (none, 0)
  else if ¬clientConfigured then (none, 0)
  else
    match env.primary with
    | .ok resp =>
      match extract_text_from_openai_response resp with
      | some s =>
        if !s.isEmpty then (parseRelevanceReply s, 1)
        else
          match env.secondary with
          | .ok (some content) => (parseRelevanceReply content, 2)
          | .ok none => (none, 2)
          | .exn => (none, 2)
      | none =>
        match env.secondary with
        | .ok (some content) => (parseRelevanceReply content, 2)
        | .ok none => (none, 2)
        | .exn => (none, 2)
    | .exn =>
      match env.secondary with
      | .ok (some content) => (parseRelevanceReply content, 2)
      | .ok none => (none, 2)
      | .exn => (none, 2)

/-! ## Derived notions used by the statements -/

/-- The model phase of a `Decide` call ends in a determinate decision or is
skipped or falls back: exactly the situations in which the call's decision is
written to the cache by `should_summarize_with_matches`. -/
def modelPathDeterminate (cfg : Config) (classify : ClassifierResult) : Prop :=
  cfg.useModelGating = false ∨ stripStr (lowerStr cfg.strategy) ≠ modelTok
    ∨ classify = .ok (some true) ∨ classify = .ok (some false)
    ∨ cfg.fallbackToKeywords = true

/-- The usable text of the primary summarization attempt: present iff the
call did not raise and a truthy text was extracted from its reply. -/
def primaryUsableText (p : CallResult Response) : Option Text :=
  match p with
  | .exn => none
  | .ok r =>
    match extract_text_from_openai_response r with
    | some s => if !s.isEmpty then some s else none
    | none => none

/-- What the secondary chat-completions attempt hands back to the caller. -/
def secondaryContent : CallResult (Option Text) → Option Text
  | .ok content => content
  | .exn => none

/-- Concrete configuration: model strategy, positive TTL, fallback enabled. -/
def cfgC1 : Config :=
  ⟨true, modelTok, allowIfAnyTok, [charsOf "x"], true, 100, true, true⟩

/-- Concrete configuration: model strategy, fallback to keywords disabled,
`default_on_error = true`. -/
def cfgC2 : Config :=
  ⟨true, modelTok, allowIfAnyTok, [charsOf "x"], true, 100, true, false⟩

/-- Concrete configuration: unknown strategy, `deny_if_any`, one keyword. -/
def cfgC3 : Config :=
  ⟨true, charsOf "bogus", denyIfAnyTok, [charsOf "estado"], true, 0, true, true⟩

/-- Concrete end-to-end configuration of the spec's scenario section. -/
def cfgScenario : Config :=
  ⟨true, keywordsTok, allowIfAnyTok, [charsOf "inflacion"], true, 60, false, true⟩

/-! ## Helper lemmas -/

theorem get_cached_nonpos {ttl : Int} (h : ttl ≤ 0) (cache : Cache) (now : Int)
    (key : Text) : get_cached ttl cache now key = (none, cache) := by
  simp [get_cached, h]

theorem set_cached_nonpos {ttl : Int} (h : ttl ≤ 0) (cache : Cache) (now : Int)
    (key : Text) (d : Bool) : set_cached ttl cache now key d = cache := by
  simp [set_cached, h]

theorem get_cached_empty (ttl : Int) (now : Int) (key : Text) :
    get_cached ttl [] now key = (none, []) := by
  unfold get_cached cacheLookup
  split <;> rfl

theorem cacheLookup_set_self {ttl : Int} (cache : Cache) (now : Int) (key : Text)
    (d : Bool) (h : 0 < ttl) :
    cacheLookup (set_cached ttl cache now key d) key = some (now + ttl, d) := by
  simp [set_cached, Int.not_le.mpr h, cacheLookup]

theorem get_cached_set_fresh {ttl : Int} (cache : Cache) (t0 t1 : Int) (key : Text)
    (d : Bool) (h : 0 < ttl) (ht : t1 < t0 + ttl) :
    get_cached ttl (set_cached ttl cache t0 key d) t1 key
      = (some d, set_cached ttl cache t0 key d) := by
  unfold get_cached
  rw [if_neg (Int.not_le.mpr h), cacheLookup_set_self cache t0 key d h]
  simp only []
  rw [if_neg (Int.not_le.mpr ht)]

/-! ## Claim theorems -/

/-- C10: with an empty input text, or with the OpenAI client unconfigured,
`get_ai_summary` and `get_audio_summary` return absent and
`is_article_relevant` returns indeterminate, all without an outbound call. -/
theorem c10_guards :
    (∀ (env : OpenAIEnv) (text : Text), get_ai_summary false env text = (none, 0))
  ∧ (∀ (env : OpenAIEnv) (conf : Bool), get_ai_summary conf env [] = (none, 0))
  ∧ (∀ (env : OpenAIEnv) (text : Text), get_audio_summary false env text = (none, 0))
  ∧ (∀ (env : OpenAIEnv) (conf : Bool), get_audio_summary conf env [] = (none, 0))
  ∧ (∀ (env : OpenAIEnv) (text : Text), is_article_relevant false env text = (none, 0))
  ∧ (∀ (env : OpenAIEnv) (conf : Bool), is_article_relevant conf env [] = (none, 0)) := by
  refine ⟨fun env text => ?_, fun env conf => ?_, fun env text => ?_,
    fun env conf => ?_, fun env text => ?_, fun env conf => ?_⟩
  · simp [get_ai_summary]
  · simp [get_ai_summary]
  · simp [get_audio_summary]
  · simp [get_audio_summary]
  · unfold is_article_relevant
    split
    · rfl
    · simp
  · simp [is_article_relevant]

/-- C8: an empty or absent text yields `allowed = true` with no matches
immediately, and with gating disabled every `Decide` call returns ALLOW for
any input text, in both cases touching neither cache nor classifier
(result cache unchanged, zero evaluation phases). -/
theorem c8_fail_open :
    (∀ (cfg : Config) (nfkd : Text → Text) (classify : ClassifierResult)
        (cache : Cache) (now : Int),
       should_summarize cfg nfkd classify cache now [] = ⟨true, cache, 0⟩)
  ∧ (∀ (cfg : Config) (nfkd : Text → Text) (classify : ClassifierResult)
        (cache : Cache) (now : Int) (force : Bool),
       should_summarize_with_matches cfg nfkd classify cache now [] force
         = ⟨true, [], cache, 0⟩)
  ∧ (∀ (cfg : Config) (nfkd : Text → Text) (classify : ClassifierResult)
        (cache : Cache) (now : Int) (text : Text), cfg.enableGating = false →
       should_summarize cfg nfkd classify cache now text = ⟨true, cache, 0⟩
       ∧ should_summarize_with_matches cfg nfkd classify cache now text false
           = ⟨true, [], cache, 0⟩) := by
  refine ⟨fun cfg nfkd classify cache now => ?_,
    fun cfg nfkd classify cache now force => ?_,
    fun cfg nfkd classify cache now text h => ⟨?_, ?_⟩⟩
  · unfold should_summarize
    rcases hb : cfg.enableGating <;> simp [hb]
  · simp [should_summarize_with_matches]
  · simp [should_summarize, h]
  · unfold should_summarize_with_matches
    rcases ht : decide (text = []) <;> simp_all

/-- Closed witness for `c8_fail_open`: the disabled-gating conjunct applied to
a concrete configuration and an adversarial text matching its deny keyword. -/
theorem c8_fail_open_witness :
    should_summarize ⟨false, keywordsTok, denyIfAnyTok, [charsOf "estado"], true, 60, false, true⟩
        id (.ok none) [] 0 (charsOf "el estado") = ⟨true, [], 0⟩
    ∧ should_summarize_with_matches
        ⟨false, keywordsTok, denyIfAnyTok, [charsOf "estado"], true, 60, false, true⟩
        id (.ok none) [] 0 (charsOf "el estado") false = ⟨true, [], [], 0⟩ :=
  c8_fail_open.2.2 ⟨false, keywordsTok, denyIfAnyTok, [charsOf "estado"], true, 60, false, true⟩
    id (.ok none) [] 0 (charsOf "el estado") rfl

/-- C5: with a non-empty configured keyword list and a fixed match set,
`allow_if_any` and `deny_if_any` evaluate to opposite decisions; on an empty
match set `allow_if_any` denies and `deny_if_any` allows. -/
theorem c5_match_mode_symmetry (cfg : Config) (matched : List Text)
    (hk : cfg.keywords ≠ []) :
    evaluate_matches { cfg with matchMode := allowIfAnyTok } matched
      = !evaluate_matches { cfg with matchMode := denyIfAnyTok } matched
  ∧ (matched = [] →
      evaluate_matches { cfg with matchMode := allowIfAnyTok } matched = false
      ∧ evaluate_matches { cfg with matchMode := denyIfAnyTok } matched = true) := by
  have hlow1 : lowerStr allowIfAnyTok = allowIfAnyTok := by decide
  have hlow2 : lowerStr denyIfAnyTok = denyIfAnyTok := by decide
  have hne : allowIfAnyTok ≠ denyIfAnyTok := by decide
  have hne2 : denyIfAnyTok ≠ allowIfAnyTok := by decide
  constructor
  · simp [evaluate_matches, hk, hlow1, hlow2, hne, hne2]
  · intro hm
    subst hm
    simp [evaluate_matches, hk, hlow1, hlow2, hne, hne2]

/-- Closed witness for `c5_match_mode_symmetry` at a concrete configuration
with a non-empty keyword list and a non-empty match set. -/
theorem c5_match_mode_symmetry_witness :
    evaluate_matches { cfgScenario with matchMode := allowIfAnyTok } [charsOf "inflacion"]
      = !evaluate_matches { cfgScenario with matchMode := denyIfAnyTok } [charsOf "inflacion"] :=
  (c5_match_mode_symmetry cfgScenario [charsOf "inflacion"] (by decide)).1

theorem summaryChain_attempts_le (env : OpenAIEnv) : (summaryChain env).2 ≤ 2 := by
  rcases env with ⟨p, sec⟩
  rcases p with resp | _
  · rcases hx : extract_text_from_openai_response resp with _ | t
    · cases sec <;> simp [summaryChain, hx]
    · rcases t with _ | ⟨c, cs⟩ <;> cases sec <;> simp [summaryChain, hx]
  · cases sec <;> simp [summaryChain]

theorem summaryChain_unusable (env : OpenAIEnv)
    (h : primaryUsableText env.primary = none) :
    summaryChain env = (secondaryContent env.secondary, 2) := by
  rcases env with ⟨p, sec⟩
  rcases p with resp | _
  · rcases hx : extract_text_from_openai_response resp with _ | t
    · cases sec <;> simp [summaryChain, secondaryContent, hx]
    · rcases t with _ | ⟨c, cs⟩
      · cases sec <;> simp [summaryChain, secondaryContent, hx]
      · exfalso
        simp [primaryUsableText, hx] at h
  · cases sec <;> simp [summaryChain, secondaryContent]

/-- C6: with a configured client and non-empty text, whenever the primary
summarization attempt raises or yields no usable extracted text, both
`get_ai_summary` and `get_audio_summary` perform exactly one secondary
attempt (two outbound attempts total, never more), and when the secondary
attempt also fails the result is absent. Exceptions cannot propagate: the
chain is a total function into `Option Text × Nat`. -/
theorem c6_fallback_exhaustion :
    (∀ (conf : Bool) (env : OpenAIEnv) (text : Text),
       (get_ai_summary conf env text).2 ≤ 2 ∧ (get_audio_summary conf env text).2 ≤ 2)
  ∧ (∀ (env : OpenAIEnv) (text : Text), text ≠ [] →
       primaryUsableText env.primary = none →
       (get_ai_summary true env text).2 = 2 ∧ (get_audio_summary true env text).2 = 2)
  ∧ (∀ (env : OpenAIEnv) (text : Text), text ≠ [] →
       primaryUsableText env.primary = none → env.secondary = .exn →
       get_ai_summary true env text = (none, 2)
       ∧ get_audio_summary true env text = (none, 2)) := by
  refine ⟨fun conf env text => ⟨?_, ?_⟩, fun env text ht hp => ?_, fun env text ht hp hs => ?_⟩
  · unfold get_ai_summary
    split
    · simp
    · exact summaryChain_attempts_le env
  · unfold get_audio_summary
    split
    · simp
    · exact summaryChain_attempts_le env
  · have hc := summaryChain_unusable env hp
    constructor
    · simp [get_ai_summary, ht, hc]
    · simp [get_audio_summary, ht, hc]
  · have hc := summaryChain_unusable env hp
    rw [hs] at hc
    constructor
    · simp [get_ai_summary, ht, hc, secondaryContent]
    · simp [get_audio_summary, ht, hc, secondaryContent]

/-- Closed witness for `c6_fallback_exhaustion`: both attempts raising, on a
concrete text. -/
theorem c6_fallback_exhaustion_witness :
    get_ai_summary true ⟨.exn, .exn⟩ (charsOf "noticia") = (none, 2)
    ∧ get_audio_summary true ⟨.exn, .exn⟩ (charsOf "noticia") = (none, 2) :=
  c6_fallback_exhaustion.2.2 ⟨.exn, .exn⟩ (charsOf "noticia") (by decide) rfl rfl

/-- C7 counterexample: the claim "the returned value is never an empty or
whitespace-only string" is false. When the primary reply's `output_text` is
the (truthy) whitespace-only string `"   "`, `get_ai_summary` returns
`strip("   ")`, the empty string, after one attempt. -/
theorem c7_counterexample :
    get_ai_summary true ⟨.ok ⟨some (charsOf "   "), none⟩, .exn⟩ (charsOf "noticia")
      = (some [], 1)
    ∧ stripStr (charsOf "   ") = [] := by constructor <;> decide

/-- C7 amended: the returned value is absent, or the `strip` of a truthy
(non-empty) primary extraction — which is empty exactly when that extraction
was whitespace-only — or the secondary reply's content returned verbatim
(possibly empty); in particular a failed secondary attempt yields absent. -/
theorem c7_amended (conf : Bool) (env : OpenAIEnv) (text : Text) :
    ((get_ai_summary conf env text).1 = none
      ∨ (∃ s, primaryUsableText env.primary = some s
          ∧ (get_ai_summary conf env text).1 = some (stripStr s))
      ∨ (get_ai_summary conf env text).1 = secondaryContent env.secondary)
  ∧ ((get_audio_summary conf env text).1 = none
      ∨ (∃ s, primaryUsableText env.primary = some s
          ∧ (get_audio_summary conf env text).1 = some (stripStr s))
      ∨ (get_audio_summary conf env text).1 = secondaryContent env.secondary) := by
  have key : (summaryChain env).1 = none
      ∨ (∃ s, primaryUsableText env.primary = some s
          ∧ (summaryChain env).1 = some (stripStr s))
      ∨ (summaryChain env).1 = secondaryContent env.secondary := by
    rcases hp : primaryUsableText env.primary with _ | s
    · right; right
      rw [summaryChain_unusable env hp]
    · right; left
      refine ⟨s, rfl, ?_⟩
      rcases env with ⟨p, sec⟩
      rcases p with resp | _
      · rcases hx : extract_text_from_openai_response resp with _ | t
        · simp [primaryUsableText, hx] at hp
        · rcases t with _ | ⟨c, cs⟩
          · simp [primaryUsableText, hx] at hp
          · simp only [primaryUsableText, hx] at hp
            simp at hp
            subst hp
            simp [summaryChain, hx]
      · simp [primaryUsableText] at hp
  constructor
  · unfold get_ai_summary
    split
    · left; rfl
    · exact key
  · unfold get_audio_summary
    split
    · left; rfl
    · exact key

theorem lowerChar_upper {c : Nat} (h : 65 ≤ c ∧ c ≤ 90) : lowerChar c = c + 32 := by
  unfold lowerChar
  rw [if_pos h]

theorem lowerChar_other {c : Nat} (h : ¬(65 ≤ c ∧ c ≤ 90)) : lowerChar c = c := by
  unfold lowerChar
  rw [if_neg h]

theorem lowerChar_idem (c : Nat) : lowerChar (lowerChar c) = lowerChar c := by
  by_cases h : 65 ≤ c ∧ c ≤ 90
  · rw [lowerChar_upper h, lowerChar_other (by omega)]
  · rw [lowerChar_other h]
    exact lowerChar_other h

theorem lowerChar_lt_128 {c : Nat} (h : c < 128) : lowerChar c < 128 := by
  unfold lowerChar
  split <;> omega

theorem normalize_text_all_ascii (nfkd : Text → Text) (s : Text) :
    ∀ c ∈ normalize_text nfkd s, c < 128 := by
  intro c hc
  unfold normalize_text at hc
  rcases List.mem_map.mp hc with ⟨c', hc', rfl⟩
  exact lowerChar_lt_128 (by simpa using (List.mem_filter.mp hc').2)

/-- C9: normalization is idempotent. The only assumption on the unmodelled
NFKD table is the Unicode fact that a string of ASCII code points is its own
NFKD decomposition. -/
theorem c9_normalize_idempotent (nfkd : Text → Text)
    (hascii : ∀ l : Text, (∀ c ∈ l, c < 128) → nfkd l = l) (s : Text) :
    normalize_text nfkd (normalize_text nfkd s) = normalize_text nfkd s := by
  have hall := normalize_text_all_ascii nfkd s
  have h1 : nfkd (normalize_text nfkd s) = normalize_text nfkd s := hascii _ hall
  have h2 : (normalize_text nfkd s).filter (fun c => c < 128) = normalize_text nfkd s :=
    List.filter_eq_self.mpr (fun c hc => by simpa using hall c hc)
  calc normalize_text nfkd (normalize_text nfkd s)
      = ((nfkd (normalize_text nfkd s)).filter (fun c => c < 128)).map lowerChar := rfl
    _ = ((normalize_text nfkd s).filter (fun c => c < 128)).map lowerChar := by rw [h1]
    _ = (normalize_text nfkd s).map lowerChar := by rw [h2]
    _ = normalize_text nfkd s := by
        unfold normalize_text
        rw [List.map_map]
        exact List.map_congr_left (fun c _ => lowerChar_idem c)

/-- Closed witness for `c9_normalize_idempotent`: the identity decomposition
(ASCII input) and a concrete mixed-case string. -/
theorem c9_normalize_idempotent_witness :
    normalize_text id (normalize_text id (charsOf "Estado URUGUAYO"))
      = normalize_text id (charsOf "Estado URUGUAYO") :=
  c9_normalize_idempotent id (fun _ _ => rfl) (charsOf "Estado URUGUAYO")

theorem matchesAt_drop {text token : Text} {i : Nat}
    (h : matchesAt text token i = true) : ∃ t, token ++ t = text.drop i := by
  unfold matchesAt at h
  simp only [Bool.and_eq_true] at h
  exact List.isPrefixOf_iff_prefix.mp h.1.2

/-- C4: keyword matching is whole-word. First, generally: a match of an
all-word-character token at position `i` forces a non-word character (or the
string edge) immediately before position `i` and immediately after the
token's end, so a keyword can never match inside a larger word. Second, the
spec's two concrete probes: "estado" registers no match inside
"estadocracia" and registers exactly one match in "el estado uruguayo". -/
theorem c4_keyword_boundary :
    (∀ (text token : Text) (i : Nat), token ≠ [] →
       (∀ c ∈ token, isWordChar c = true) → matchesAt text token i = true →
       ((i = 0 ∨ wordAt text (i - 1) = false)
         ∧ wordAt text (i + token.length) = false))
  ∧ find_keyword_matches (charsOf "la estadocracia avanza") [charsOf "estado"] = []
  ∧ find_keyword_matches (charsOf "el estado uruguayo") [charsOf "estado"]
      = [charsOf "estado"] := by
  refine ⟨fun text token i hne hword hm => ?_, by decide, by decide⟩
  rcases matchesAt_drop hm with ⟨t, hdrop⟩
  rcases token with _ | ⟨c0, cs⟩
  · exact absurd rfl hne
  have hget : ∀ j, j < (c0 :: cs).length → text.get? (i + j) = (c0 :: cs).get? j := by
    intro j hj
    rw [List.get?_eq_getElem?, List.get?_eq_getElem?, ← List.getElem?_drop, ← hdrop]
    exact List.getElem?_append_left hj
  have hw0 : wordAt text i = true := by
    have hq := hget 0 (by simp)
    rw [Nat.add_zero] at hq
    unfold wordAt
    rw [hq]
    exact hword c0 (by simp)
  have hwlast : wordAt text (i + cs.length) = true := by
    have hj : cs.length < (c0 :: cs).length := by simp
    have hq := hget cs.length hj
    rcases hx : (c0 :: cs).get? cs.length with _ | d
    · exfalso
      have hlen2 := List.get?_eq_none.mp hx
      simp at hlen2
    · unfold wordAt
      rw [hq, hx]
      exact hword d (List.get?_mem hx)
  unfold matchesAt at hm
  simp only [Bool.and_eq_true] at hm
  have hb0 := hm.1.1
  have hb1 := hm.2
  unfold boundaryAt at hb0 hb1
  constructor
  · rcases hi : i with _ | i'
    · exact Or.inl rfl
    · right
      rw [hi] at hb0
      rw [hi] at hw0
      simp [hw0] at hb0
      simpa using hb0
  · have hne2 : i + (c0 :: cs).length ≠ 0 := by simp
    rw [if_neg hne2] at hb1
    have : i + (c0 :: cs).length - 1 = i + cs.length := by simp
    rw [this, hwlast] at hb1
    simpa using hb1

/-- Closed witness for `c4_keyword_boundary`: the general whole-word part
applied to a concrete match of "ab" at position 0 of "ab cd". -/
theorem c4_keyword_boundary_witness :
    (0 = 0 ∨ wordAt (charsOf "ab cd") (0 - 1) = false)
    ∧ wordAt (charsOf "ab cd") (0 + (charsOf "ab").length) = false :=
  c4_keyword_boundary.1 (charsOf "ab cd") (charsOf "ab") 0 (by decide) (by decide) (by decide)

/-! ## Control-flow lemmas for the decision functions -/

theorem wswm_hit (cfg : Config) (nfkd : Text → Text) (classify : ClassifierResult)
    (cache : Cache) (now : Int) (text : Text) (force : Bool) (d : Bool) (c' : Cache)
    (htext : text ≠ []) (hen : cfg.enableGating = true)
    (hhit : get_cached cfg.cacheTTL cache now (cache_key (normalize_text nfkd text))
      = (some d, c')) :
    should_summarize_with_matches cfg nfkd classify cache now text force
      = ⟨d, [], c', 0⟩ := by
  unfold should_summarize_with_matches
  simp [htext, hen, hhit]

theorem wswm_first_cache (cfg : Config) (nfkd : Text → Text)
    (classify : ClassifierResult) (now : Int) (text : Text) (force : Bool)
    (htext : text ≠ []) (hen : cfg.enableGating = true)
    (hdet : modelPathDeterminate cfg classify) :
    (should_summarize_with_matches cfg nfkd classify [] now text force).cache
      = set_cached cfg.cacheTTL [] now (cache_key (normalize_text nfkd text))
          (should_summarize_with_matches cfg nfkd classify [] now text force).decision := by
  unfold should_summarize_with_matches
  by_cases hm : cfg.useModelGating = true ∧ stripStr (lowerStr cfg.strategy) = modelTok
  · rcases classify with (_ | b) | _
    · rcases hdet with h | h | h | h | h
      · simp [hm.1] at h
      · exact absurd hm.2 h
      · simp at h
      · simp at h
      · simp [htext, hen, hm, get_cached_empty, h]
    · cases b <;> simp [htext, hen, hm, get_cached_empty]
    · rcases hdet with h | h | h | h | h
      · simp [hm.1] at h
      · exact absurd hm.2 h
      · simp at h
      · simp at h
      · simp [htext, hen, hm, get_cached_empty, h]
  · simp [htext, hen, hm, get_cached_empty]

theorem keywordsTok_ne_modelTok : keywordsTok ≠ modelTok := by decide

theorem ss_keyword_path (cfg : Config) (nfkd : Text → Text)
    (classify : ClassifierResult) (cache : Cache) (now : Int) (text : Text)
    (htext : text ≠ []) (hen : cfg.enableGating = true)
    (hstrat : stripStr (lowerStr cfg.strategy) = keywordsTok) :
    should_summarize cfg nfkd classify cache now text
      = match get_cached cfg.cacheTTL cache now (cache_key (normalize_text nfkd text)) with
        | (some d, c') => ⟨d, c', 0⟩
        | (none, c') =>
          ⟨(keywordDecide cfg (normalize_text nfkd text)).1,
           set_cached cfg.cacheTTL c' now (cache_key (normalize_text nfkd text))
             (keywordDecide cfg (normalize_text nfkd text)).1, 1⟩ := by
  unfold should_summarize
  simp [htext, hen, hstrat, keywordsTok_ne_modelTok]

theorem ss_cache_nonpos (cfg : Config) (nfkd : Text → Text)
    (classify : ClassifierResult) (cache : Cache) (now : Int) (text : Text)
    (h : cfg.cacheTTL ≤ 0) :
    (should_summarize cfg nfkd classify cache now text).cache = cache := by
  unfold should_summarize
  simp only [get_cached_nonpos h, set_cached_nonpos h]
  split
  · rfl
  split
  · rfl
  split
  next r snd heq =>
    split at heq
    · split at heq
      · injection heq with h1 h2
        injection h1 with h3
        subst h3
        rfl
      · injection heq with h1 h2
        injection h1 with h3
        subst h3
        rfl
      · simp_all
      · split at heq
        · injection heq with h1 h2
          injection h1 with h3
          subst h3
          rfl
        · simp_all
    · simp_all
  next e0 heq =>
    split <;> rfl

theorem wswm_cache_nonpos (cfg : Config) (nfkd : Text → Text)
    (classify : ClassifierResult) (cache : Cache) (now : Int) (text : Text)
    (force : Bool) (h : cfg.cacheTTL ≤ 0) :
    (should_summarize_with_matches cfg nfkd classify cache now text force).cache
      = cache := by
  unfold should_summarize_with_matches
  simp only [get_cached_nonpos h, set_cached_nonpos h]
  repeat first | rfl | split

theorem wswm_indeterminate_nofallback (cfg : Config) (nfkd : Text → Text)
    (classify : ClassifierResult) (now : Int) (text : Text) (force : Bool)
    (htext : text ≠ []) (hen : cfg.enableGating = true)
    (hu : cfg.useModelGating = true) (hs : stripStr (lowerStr cfg.strategy) = modelTok)
    (hf : cfg.fallbackToKeywords = false)
    (hcl : classify = .ok none ∨ classify = .exn) :
    should_summarize_with_matches cfg nfkd classify [] now text force
      = ⟨cfg.defaultOnError, [], [], 1⟩ := by
  unfold should_summarize_with_matches
  rcases hcl with rfl | rfl <;> simp [htext, hen, hu, hs, hf, get_cached_empty]

theorem wswm_indeterminate_fallback (cfg : Config) (nfkd : Text → Text)
    (classify : ClassifierResult) (now : Int) (text : Text) (force : Bool)
    (htext : text ≠ []) (hen : cfg.enableGating = true)
    (hu : cfg.useModelGating = true) (hs : stripStr (lowerStr cfg.strategy) = modelTok)
    (hf : cfg.fallbackToKeywords = true)
    (hcl : classify = .ok none ∨ classify = .exn) :
    should_summarize_with_matches cfg nfkd classify [] now text force
      = ⟨(keywordDecide cfg (normalize_text nfkd text)).1,
         (keywordDecide cfg (normalize_text nfkd text)).2,
         set_cached cfg.cacheTTL [] now (cache_key (normalize_text nfkd text))
           (keywordDecide cfg (normalize_text nfkd text)).1, 2⟩ := by
  unfold should_summarize_with_matches
  rcases hcl with rfl | rfl <;> simp [htext, hen, hu, hs, hf, get_cached_empty]

theorem ss_model_exn_nofallback (cfg : Config) (nfkd : Text → Text)
    (cache : Cache) (now : Int) (text : Text)
    (htext : text ≠ []) (hen : cfg.enableGating = true)
    (hu : cfg.useModelGating = true) (hs : stripStr (lowerStr cfg.strategy) = modelTok)
    (hf : cfg.fallbackToKeywords = false) :
    should_summarize cfg nfkd .exn cache now text
      = ⟨cfg.defaultOnError, cache, 1⟩ := by
  unfold should_summarize
  simp [htext, hen, hu, hs, hf]

theorem ss_model_none_keyword (cfg : Config) (nfkd : Text → Text)
    (now : Int) (text : Text)
    (htext : text ≠ []) (hen : cfg.enableGating = true)
    (hu : cfg.useModelGating = true) (hs : stripStr (lowerStr cfg.strategy) = modelTok) :
    should_summarize cfg nfkd (.ok none) [] now text
      = ⟨(keywordDecide cfg (normalize_text nfkd text)).1,
         set_cached cfg.cacheTTL [] now (cache_key (normalize_text nfkd text))
           (keywordDecide cfg (normalize_text nfkd text)).1, 2⟩ := by
  unfold should_summarize
  simp [htext, hen, hu, hs, get_cached_empty]

/-- C1 counterexample: the claim asserts that within the TTL window the
second of two identical `Decide` calls is a pure cache hit "including when
the first decision came from the model path, which is cached". In
`should_summarize` the model path runs before any cache access and never
stores its decision: with TTL = 100 > 0 and a classifier answering `true`,
the first call leaves the cache empty and the second call invokes the
classifier again (one evaluation phase, not a cache hit). -/
theorem c1_counterexample :
    cfgC1.cacheTTL = 100
  ∧ (should_summarize cfgC1 id (.ok (some true)) [] 0 (charsOf "hola")).cache = []
  ∧ (should_summarize cfgC1 id (.ok (some true))
      (should_summarize cfgC1 id (.ok (some true)) [] 0 (charsOf "hola")).cache
      1 (charsOf "hola")).evals = 1 := by
  refine ⟨by decide, by decide, by decide⟩

/-- C1 corrected: (1) for `should_summarize_with_matches`, with TTL > 0 and a
model phase that ends determinate (skipped strategy, classifier true/false,
or fallback enabled), a repeated identical call within the TTL window returns
the same decision as a pure cache hit with zero evaluation phases; (2) the
same holds for `should_summarize` on the keyword strategy, the only strategy
whose decisions that function caches (its model path bypasses the cache
entirely); (3) with TTL ≤ 0 no call of either function ever changes the
cache. -/
theorem c1_cache_amended :
    (∀ (cfg : Config) (nfkd : Text → Text) (classify : ClassifierResult)
        (text : Text) (t0 t1 : Int) (force : Bool),
       cfg.enableGating = true → text ≠ [] → 0 < cfg.cacheTTL →
       t0 ≤ t1 → t1 < t0 + cfg.cacheTTL → modelPathDeterminate cfg classify →
       (should_summarize_with_matches cfg nfkd classify
          (should_summarize_with_matches cfg nfkd classify [] t0 text force).cache
          t1 text force).decision
         = (should_summarize_with_matches cfg nfkd classify [] t0 text force).decision
       ∧ (should_summarize_with_matches cfg nfkd classify
           (should_summarize_with_matches cfg nfkd classify [] t0 text force).cache
           t1 text force).evals = 0)
  ∧ (∀ (cfg : Config) (nfkd : Text → Text) (classify : ClassifierResult)
        (text : Text) (t0 t1 : Int),
       cfg.enableGating = true → text ≠ [] → 0 < cfg.cacheTTL →
       t0 ≤ t1 → t1 < t0 + cfg.cacheTTL →
       stripStr (lowerStr cfg.strategy) = keywordsTok →
       (should_summarize cfg nfkd classify
          (should_summarize cfg nfkd classify [] t0 text).cache t1 text).decision
         = (should_summarize cfg nfkd classify [] t0 text).decision
       ∧ (should_summarize cfg nfkd classify
           (should_summarize cfg nfkd classify [] t0 text).cache t1 text).evals = 0)
  ∧ (∀ (cfg : Config) (nfkd : Text → Text) (classify : ClassifierResult)
        (cache : Cache) (now : Int) (text : Text) (force : Bool),
       cfg.cacheTTL ≤ 0 →
       (should_summarize cfg nfkd classify cache now text).cache = cache
       ∧ (should_summarize_with_matches cfg nfkd classify cache now text force).cache
           = cache) := by
  refine ⟨fun cfg nfkd classify text t0 t1 force hen htext httl hle hlt hdet => ?_,
    fun cfg nfkd classify text t0 t1 hen htext httl hle hlt hstrat => ?_,
    fun cfg nfkd classify cache now text force h =>
      ⟨ss_cache_nonpos cfg nfkd classify cache now text h,
       wswm_cache_nonpos cfg nfkd classify cache now text force h⟩⟩
  · have hc := wswm_first_cache cfg nfkd classify t0 text force htext hen hdet
    have hfresh := get_cached_set_fresh [] t0 t1 (cache_key (normalize_text nfkd text))
      (should_summarize_with_matches cfg nfkd classify [] t0 text force).decision httl hlt
    rw [← hc] at hfresh
    rw [wswm_hit cfg nfkd classify
      (should_summarize_with_matches cfg nfkd classify [] t0 text force).cache t1 text force
      (should_summarize_with_matches cfg nfkd classify [] t0 text force).decision
      (should_summarize_with_matches cfg nfkd classify [] t0 text force).cache
      htext hen hfresh]
    exact ⟨rfl, rfl⟩
  · have h1 := ss_keyword_path cfg nfkd classify [] t0 text htext hen hstrat
    rw [get_cached_empty] at h1
    simp only [] at h1
    have h2 := ss_keyword_path cfg nfkd classify
      (should_summarize cfg nfkd classify [] t0 text).cache t1 text htext hen hstrat
    rw [h1] at h2
    simp only [] at h2
    rw [get_cached_set_fresh [] t0 t1 (cache_key (normalize_text nfkd text))
      ((keywordDecide cfg (normalize_text nfkd text)).1) httl hlt] at h2
    simp only [] at h2
    rw [h1, h2]
    exact ⟨rfl, rfl⟩

/-- Closed witness for `c1_cache_amended`: the with-matches conjunct at a
concrete configuration (model strategy, classifier true, TTL 100) where the
second call is a cache hit. -/
theorem c1_cache_amended_witness :
    (should_summarize_with_matches cfgC1 id (.ok (some true))
       (should_summarize_with_matches cfgC1 id (.ok (some true)) [] 0
         (charsOf "hola") false).cache 1 (charsOf "hola") false).decision
      = (should_summarize_with_matches cfgC1 id (.ok (some true)) [] 0
          (charsOf "hola") false).decision
    ∧ (should_summarize_with_matches cfgC1 id (.ok (some true))
        (should_summarize_with_matches cfgC1 id (.ok (some true)) [] 0
          (charsOf "hola") false).cache 1 (charsOf "hola") false).evals = 0 :=
  c1_cache_amended.1 cfgC1 id (.ok (some true)) (charsOf "hola") 0 1 false rfl
    (by decide) (by decide) (by decide) (by decide)
    (Or.inr (Or.inr (Or.inl rfl)))

/-- C2 counterexample: the claim asserts that with the model strategy, a
`None` classifier reply and fallback-to-keywords disabled, `should_summarize`
returns `default_on_error` uncached. In the code only the exception path does
so; a `None` reply falls through to keyword evaluation. With
`default_on_error = true`, keywords `["x"]` under `allow_if_any`, and text
"hola" (no match), the call returns `false`, not `true`. -/
theorem c2_counterexample :
    cfgC2.defaultOnError = true
  ∧ cfgC2.fallbackToKeywords = false
  ∧ (should_summarize cfgC2 id (.ok none) [] 0 (charsOf "hola")).decision = false := by
  refine ⟨by decide, by decide, by decide⟩

/-- C2 corrected: (1) `should_summarize_with_matches` behaves as claimed: for
an indeterminate classifier outcome (a `None` reply or a raised error) with
fallback disabled it returns `default_on_error` and leaves the cache empty;
(2) `should_summarize` does so only when the classifier raises; (3) on a
`None` reply `should_summarize` always proceeds to keyword evaluation — and
caches that keyword decision — regardless of the fallback flag; (4) with
fallback enabled, `should_summarize_with_matches` proceeds to keyword
evaluation on either indeterminate outcome. -/
theorem c2_amended :
    (∀ (cfg : Config) (nfkd : Text → Text) (classify : ClassifierResult)
        (now : Int) (text : Text) (force : Bool),
       text ≠ [] → cfg.enableGating = true → cfg.useModelGating = true →
       stripStr (lowerStr cfg.strategy) = modelTok → cfg.fallbackToKeywords = false →
       (classify = .ok none ∨ classify = .exn) →
       should_summarize_with_matches cfg nfkd classify [] now text force
         = ⟨cfg.defaultOnError, [], [], 1⟩)
  ∧ (∀ (cfg : Config) (nfkd : Text → Text) (cache : Cache) (now : Int) (text : Text),
       text ≠ [] → cfg.enableGating = true → cfg.useModelGating = true →
       stripStr (lowerStr cfg.strategy) = modelTok → cfg.fallbackToKeywords = false →
       should_summarize cfg nfkd .exn cache now text = ⟨cfg.defaultOnError, cache, 1⟩)
  ∧ (∀ (cfg : Config) (nfkd : Text → Text) (now : Int) (text : Text),
       text ≠ [] → cfg.enableGating = true → cfg.useModelGating = true →
       stripStr (lowerStr cfg.strategy) = modelTok →
       should_summarize cfg nfkd (.ok none) [] now text
         = ⟨(keywordDecide cfg (normalize_text nfkd text)).1,
            set_cached cfg.cacheTTL [] now (cache_key (normalize_text nfkd text))
              (keywordDecide cfg (normalize_text nfkd text)).1, 2⟩)
  ∧ (∀ (cfg : Config) (nfkd : Text → Text) (classify : ClassifierResult)
        (now : Int) (text : Text) (force : Bool),
       text ≠ [] → cfg.enableGating = true → cfg.useModelGating = true →
       stripStr (lowerStr cfg.strategy) = modelTok → cfg.fallbackToKeywords = true →
       (classify = .ok none ∨ classify = .exn) →
       should_summarize_with_matches cfg nfkd classify [] now text force
         = ⟨(keywordDecide cfg (normalize_text nfkd text)).1,
            (keywordDecide cfg (normalize_text nfkd text)).2,
            set_cached cfg.cacheTTL [] now (cache_key (normalize_text nfkd text))
              (keywordDecide cfg (normalize_text nfkd text)).1, 2⟩) :=
  ⟨fun cfg nfkd classify now text force htext hen hu hs hf hcl =>
      wswm_indeterminate_nofallback cfg nfkd classify now text force htext hen hu hs hf hcl,
   fun cfg nfkd cache now text htext hen hu hs hf =>
      ss_model_exn_nofallback cfg nfkd cache now text htext hen hu hs hf,
   fun cfg nfkd now text htext hen hu hs =>
      ss_model_none_keyword cfg nfkd now text htext hen hu hs,
   fun cfg nfkd classify now text force htext hen hu hs hf hcl =>
      wswm_indeterminate_fallback cfg nfkd classify now text force htext hen hu hs hf hcl⟩

/-- Closed witness for `c2_amended`: the with-matches conjunct at the concrete
no-fallback configuration and an exception outcome. -/
theorem c2_amended_witness :
    should_summarize_with_matches cfgC2 id .exn [] 0 (charsOf "hola") false
      = ⟨cfgC2.defaultOnError, [], [], 1⟩ :=
  c2_amended.1 cfgC2 id .exn 0 (charsOf "hola") false (by decide) rfl rfl
    (by decide) rfl (Or.inr rfl)

/-- C3 counterexample: the claim asserts both decision functions return ALLOW
whenever the configured strategy is unknown. `should_summarize_with_matches`
has no unknown-strategy check: with strategy "bogus", match mode
`deny_if_any` and keyword "estado", the text "el estado" is evaluated by the
keyword path and DENIED. -/
theorem c3_counterexample :
    stripStr (lowerStr cfgC3.strategy) ≠ keywordsTok
  ∧ stripStr (lowerStr cfgC3.strategy) ≠ modelTok
  ∧ (should_summarize_with_matches cfgC3 id (.ok none) [] 0
      (charsOf "el estado") false).decision = false := by
  refine ⟨by decide, by decide, by decide⟩

/-- C3 corrected: (1) `should_summarize` returns ALLOW unconditionally (cache
untouched, no evaluation) when the configured strategy is neither `keywords`
nor `model`; `should_summarize_with_matches` lacks this check and proceeds to
keyword evaluation. (2)–(3) When keyword evaluation is reached, an empty
configured keyword list or an unrecognized match mode yields ALLOW. -/
theorem c3_amended :
    (∀ (cfg : Config) (nfkd : Text → Text) (classify : ClassifierResult)
        (cache : Cache) (now : Int) (text : Text),
       cfg.enableGating = true → text ≠ [] →
       stripStr (lowerStr cfg.strategy) ≠ keywordsTok →
       stripStr (lowerStr cfg.strategy) ≠ modelTok →
       should_summarize cfg nfkd classify cache now text = ⟨true, cache, 0⟩)
  ∧ (∀ (cfg : Config) (matched : List Text), cfg.keywords = [] →
       evaluate_matches cfg matched = true)
  ∧ (∀ (cfg : Config) (matched : List Text),
       lowerStr cfg.matchMode ≠ allowIfAnyTok → lowerStr cfg.matchMode ≠ denyIfAnyTok →
       evaluate_matches cfg matched = true) := by
  refine ⟨fun cfg nfkd classify cache now text hen htext h1 h2 => ?_,
    fun cfg matched hk => ?_, fun cfg matched h1 h2 => ?_⟩
  · unfold should_summarize
    simp [htext, hen, h1, h2]
  · simp [evaluate_matches, hk]
  · unfold evaluate_matches
    split
    · rfl
    · rw [if_pos ⟨h1, h2⟩]

/-- Closed witness for `c3_amended`: the unknown-strategy conjunct at the
concrete "bogus" configuration, plus the empty-keyword and unknown-mode
conjuncts at concrete configurations. -/
theorem c3_amended_witness :
    should_summarize cfgC3 id (.ok none) [] 0 (charsOf "el estado") = ⟨true, [], 0⟩
    ∧ evaluate_matches ⟨true, keywordsTok, allowIfAnyTok, [], true, 0, false, true⟩
        [charsOf "estado"] = true
    ∧ evaluate_matches ⟨true, keywordsTok, charsOf "bogus", [charsOf "x"], true, 0, false, true⟩
        [charsOf "x"] = true :=
  ⟨c3_amended.1 cfgC3 id (.ok none) [] 0 (charsOf "el estado") rfl (by decide)
      (by decide) (by decide),
   c3_amended.2.1 ⟨true, keywordsTok, allowIfAnyTok, [], true, 0, false, true⟩
      [charsOf "estado"] rfl,
   c3_amended.2.2 ⟨true, keywordsTok, charsOf "bogus", [charsOf "x"], true, 0, false, true⟩
      [charsOf "x"] (by decide) (by decide)⟩

end DiscordSummarizer
